import Mathlib

/-!
Verification of the real-time voice session engine embedded in
`src/components/ChatInterface.tsx` (the `App` component).  The stateful
React component is modelled as a record `AppState` mirroring its
`useState`/`useRef` cells, and each handler (`playAudio`, the `onended`
callback, the interruption branch of `onmessage`, `startLiveSession`'s
failure path, `stopLiveSession`, the cursor reset in `handleSendMessage`)
becomes a pure state-transition function.  Device/audio-context time is
modelled by `ℚ`; a JavaScript `Float32` sample multiplied by the power of
two 32768 is exact, so the capture-path PCM conversion is modelled
faithfully over `ℚ` with JavaScript's `ToInt16` wrap-around semantics.
-/

namespace VPromote

/-- `AvatarState` from `src/types.ts` (the spec's `SessionState`). -/
inductive AvatarState
  | idle
  | listening
  | thinking
  | speaking
deriving DecidableEq, Fintype

/-- `AppMode` from `src/types.ts`. -/
inductive AppMode
  | landing
  | textChat
  | liveVoice
deriving DecidableEq, Fintype

/-! ## PCM capture-path encoder

Source (`processor.onaudioprocess`, ChatInterface.tsx lines 451-457):
```
const pcmData = new Int16Array(inputData.length);
for (let i = 0; i < inputData.length; i++) {
    pcmData[i] = inputData[i] * 32768;
}
```
Assignment into an `Int16Array` uses JavaScript's `ToInt16`: truncate the
number toward zero, reduce modulo 2^16, and reinterpret as a signed 16-bit
value.  Multiplication of a `Float32` by 32768 = 2^15 only shifts the
exponent, hence is exact, so the sample value may be taken to be a
rational. -/

/-- Truncation toward zero of a rational (JavaScript `ToIntegerOrInfinity`
on a finite number). -/
def ratTrunc (x : ℚ) : Int :=
  if 0 ≤ x then ⌊x⌋ else ⌈x⌉

/-- JavaScript `ToInt16`: reduce modulo 2^16 and reinterpret as signed. -/
def toInt16 (n : Int) : Int :=
  if n % 65536 < 32768 then n % 65536 else n % 65536 - 65536

/-- The capture-path sample conversion `pcmData[i] = inputData[i] * 32768`
(ChatInterface.tsx line 456). -/
def pcmEncodeSample (s : ℚ) : Int :=
  toInt16 (ratTrunc (s * 32768))

/-- Following the spec's words, for comparison with `pcmEncodeSample`:
"maps each float sample `s ∈ [-1,1]` to a 16-bit signed integer via
`round(s * 32767)` with saturation at the int16 bounds". -/
def specEncodeSample (s : ℚ) : Int :=
  max (-32768) (min 32767 (round (s * 32767)))

lemma toInt16_of_bounds (n : Int) (h1 : -32768 ≤ n) (h2 : n ≤ 32767) :
    toInt16 n = n := by
  unfold toInt16
  split <;> omega

lemma ratTrunc_mem (x : ℚ) (hl : -32768 ≤ x) (hu : x < 32768) :
    -32768 ≤ ratTrunc x ∧ ratTrunc x ≤ 32767 := by
  unfold ratTrunc
  split
  · constructor
    · have h0 : (0 : ℤ) ≤ ⌊x⌋ := Int.floor_nonneg.mpr (by assumption)
      omega
    · have : ⌊x⌋ < (32768 : ℤ) := by
        apply Int.floor_lt.mpr
        exact_mod_cast hu
      omega
  · constructor
    · have hx : (-32768 : ℚ) ≤ (⌈x⌉ : ℚ) := le_trans hl (Int.le_ceil x)
      exact_mod_cast hx
    · have h0 : ⌈x⌉ ≤ (0 : ℤ) := Int.ceil_le.mpr (by
        push_cast
        exact le_of_not_le (by assumption))
      omega

/-! ## The engine state

One record for the `App` component's `useState`/`useRef` cells that the
audio/session engine reads or writes:
`mode`, `avatarState`, `isConnected`, `error` (`useState`), and
`nextStartTimeRef` (here `cursor`), the created `AudioBufferSourceNode`s
(`sources`, in creation order — the last entry is what `audioSourceRef`
points to), `streamRef` (`stream : Bool`, microphone acquired),
`inputProcessorRef` (`processor : Bool`), and whether the live connection
made by `ai.live.connect` is still open (`sessionOpen`; note that
`liveSessionRef` is never closed anywhere in the file). -/

/-- One playback unit: an `AudioBufferSourceNode` with its scheduled start
time, its buffer's duration, and whether `.stop()` has been called on it. -/
structure Source where
  start : ℚ
  dur : ℚ
  stopped : Bool
deriving DecidableEq

/-- The engine-relevant state of the `App` component. -/
structure AppState where
  mode : AppMode
  avatar : AvatarState
  isConnected : Bool
  error : Option String
  cursor : ℚ
  sources : List Source
  stream : Bool
  processor : Bool
  sessionOpen : Bool
deriving DecidableEq

/-- Initial component state: `AppMode.LANDING`, `AvatarState.IDLE`,
`isConnected = false`, `error = null`, `nextStartTimeRef = 0`, no sources,
no microphone stream, no processor, no live session. -/
def initState : AppState :=
  { mode := .landing, avatar := .idle, isConnected := false, error := none,
    cursor := 0, sources := [], stream := false, processor := false,
    sessionOpen := false }

/-- `const startTime = Math.max(nextStartTimeRef.current, now)`
(ChatInterface.tsx line 337). -/
def scheduleStart (st : AppState) (now : ℚ) : ℚ :=
  max st.cursor now

/-- `playAudio` (ChatInterface.tsx lines 315-354), success path: create a
buffer source, `source.start(startTime)` with
`startTime = Math.max(nextStartTimeRef.current, ctx.currentTime)`, advance
`nextStartTimeRef.current = startTime + audioBuffer.duration`, set the
avatar to `SPEAKING`, and remember the source in `audioSourceRef`
(modelled as the last element of `sources`).  `now` is `ctx.currentTime`
and `dur` is `audioBuffer.duration`. -/
def playAudio (now dur : ℚ) (st : AppState) : AppState :=
  { st with
    cursor := scheduleStart st now + dur
    sources := st.sources ++ [{ start := scheduleStart st now, dur := dur, stopped := false }]
    avatar := .speaking }

/-- Mark the last created source (the one `audioSourceRef.current` points
to) as stopped; a no-op on an empty list (`audioSourceRef` is null). -/
def stopLast : List Source → List Source
  | [] => []
  | [s] => [{ s with stopped := true }]
  | s :: rest => s :: stopLast rest

/-- The interruption branch of `onmessage`
(ChatInterface.tsx lines 481-489): `audioSourceRef.current.stop()`,
`nextStartTimeRef.current = audioContextRef.current.currentTime`, and
`setAvatarState(AvatarState.LISTENING)`.  `now` is the device time
`currentTime` at which the signal is handled. -/
def interruptServer (now : ℚ) (st : AppState) : AppState :=
  { st with sources := stopLast st.sources, cursor := now, avatar := .listening }

/-- Whether a source is audibly playing at device time `t`: it was started
at or before `t`, has not ended, and was not stopped. -/
def isPlaying (s : Source) (t : ℚ) : Bool :=
  !s.stopped && decide (s.start ≤ t) && decide (t < s.start + s.dur)

/-- The `source.onended` handler (ChatInterface.tsx lines 343-348): at
device time `now`, if `ctx.currentTime >= nextStartTimeRef.current - 0.1`
set the avatar to `LISTENING` (live mode) or `IDLE` (otherwise); else
leave the state unchanged. -/
def onended (now : ℚ) (st : AppState) : AppState :=
  if st.cursor - 1/10 ≤ now then
    { st with avatar := if st.mode = .liveVoice then .listening else .idle }
  else st

/-- `stopLiveSession` (ChatInterface.tsx lines 513-525):
`setIsConnected(false)`, `setAvatarState(AvatarState.IDLE)`, stop and null
the microphone stream, disconnect and null the input processor.  The live
session promise (`liveSessionRef`) is NOT closed, so `sessionOpen` is left
unchanged. -/
def stopLiveSession (st : AppState) : AppState :=
  { st with isConnected := false, avatar := .idle, stream := false,
            processor := false }

/-- The error message set by `startLiveSession`'s catch branch
(ChatInterface.tsx line 508). -/
def micConnectError : String :=
  "ไม่สามารถเข้าถึงไมโครโฟนได้ หรือการเชื่อมต่อล้มเหลว"

/-- `startLiveSession` (ChatInterface.tsx lines 417-511) when
`getUserMedia` (or connecting) throws: the entry code has already run
`setIsConnected(true); setAvatarState(AvatarState.LISTENING);
setError(null)`, and the catch branch then runs `setError(...)` and
`setIsConnected(false)` — but never resets the avatar, so the net effect
leaves it `LISTENING`.  No stream, processor or session was acquired. -/
def startLiveSessionFail (st : AppState) : AppState :=
  { st with isConnected := false, avatar := .listening,
            error := some micConnectError }

/-- `startLiveSession` success path: connected, listening, microphone and
processor acquired, live session open. -/
def startLiveSessionOk (st : AppState) : AppState :=
  { st with isConnected := true, avatar := .listening, error := none,
            stream := true, processor := true, sessionOpen := true }

/-- The cursor reset before a new TTS utterance in `handleSendMessage`
(ChatInterface.tsx lines 399-402):
`nextStartTimeRef.current = audioContextRef.current.currentTime`. -/
def resetUtteranceCursor (now : ℚ) (st : AppState) : AppState :=
  { st with cursor := now }

/-! ## Capture pipeline constants and outbound messages -/

/-- `inputCtx.createScriptProcessor(4096, 1, 1)`
(ChatInterface.tsx line 434). -/
def captureBufferSize : Nat := 4096

/-- `new AudioContext({ sampleRate: 16000 })` for the input context
(ChatInterface.tsx line 425). -/
def inputSampleRate : Nat := 16000

/-- The `media` argument of `session.sendRealtimeInput`
(ChatInterface.tsx lines 462-467). -/
structure RealtimeInput where
  mimeType : String
  data : List Int

/-- The body of `processor.onaudioprocess` (ChatInterface.tsx lines
451-468): convert every sample of the frame to 16-bit PCM and send it with
descriptor `mimeType: 'audio/pcm;rate=16000'`. -/
def onaudioprocess (frame : List ℚ) : RealtimeInput :=
  { mimeType := "audio/pcm;rate=16000", data := frame.map pcmEncodeSample }

/-! ## Session-state assignments and the §4.4 state table -/

/-- The events that drive `setAvatarState` call sites in the source, plus
the events named by the spec's §4.4 state table. -/
inductive SessionEvent
  | userSubmitsText
  | liveCaptureStart
  | connectionOpens
  | turnComplete
  | audioChunkArrives
  | segmentEndedQuiet
  | interruption
  | fatalErrorOrClose
  | synthesisComplete
deriving DecidableEq, Fintype

/-- Every `setAvatarState` call site of the source, as the state assigned
per triggering event (`none` when the source makes no assignment on that
event).  The assignments are unconditional in the previous state:
`userSubmitsText` is `handleSendMessage` line 364; `synthesisComplete` is
line 397; `audioChunkArrives` is `playAudio` line 342; `segmentEndedQuiet`
is the `onended` revert lines 345-347; `fatalErrorOrClose` covers the
catch branch line 409, `onclose` line 494, `onerror` → `stopLiveSession`
line 515; `liveCaptureStart` is `startLiveSession` line 420;
`interruption` is line 488. -/
def codeAssigns (e : SessionEvent) (m : AppMode) : Option AvatarState :=
  match e with
  | .userSubmitsText => some .thinking
  | .liveCaptureStart => some .listening
  | .connectionOpens => none
  | .turnComplete => none
  | .audioChunkArrives => some .speaking
  | .segmentEndedQuiet => some (if m = .liveVoice then .listening else .idle)
  | .interruption => some .listening
  | .fatalErrorOrClose => some .idle
  | .synthesisComplete => some .idle

/-- Modelled from the spec: the §4.4 state-transition table, row by row.
`specTableB s e m t = true` iff `(s, e, t)` in mode `m` is one of the
table's rows. -/
def specTableB (s : AvatarState) (e : SessionEvent) (m : AppMode)
    (t : AvatarState) : Bool :=
  match s, e, t with
  | .idle, .userSubmitsText, .listening => true
  | .idle, .liveCaptureStart, .listening => true
  | .listening, .connectionOpens, .listening => true
  | .listening, .turnComplete, .thinking => decide (m ≠ .liveVoice)
  | .listening, .turnComplete, .speaking => decide (m = .liveVoice)
  | .thinking, .audioChunkArrives, .speaking => true
  | .speaking, .segmentEndedQuiet, .idle => decide (m ≠ .liveVoice)
  | .speaking, .segmentEndedQuiet, .listening => decide (m = .liveVoice)
  | _, .interruption, .listening => decide (m = .liveVoice)
  | _, .fatalErrorOrClose, .idle => true
  | _, _, _ => false

/-- The extra transitions actually performed by the source beyond the
§4.4 table: every assignment ignores the previous state, text submission
jumps straight to `THINKING`, the completed TTS call resets to `IDLE`
just before playback starts, an arriving audio chunk sets `SPEAKING` from
any state, the `onended` revert fires from any state, `startLiveSession`
sets `LISTENING` from any state, and the interruption branch sets
`LISTENING` regardless of mode. -/
def extraRowsB (e : SessionEvent) (m : AppMode) (t : AvatarState) : Bool :=
  match e, t with
  | .userSubmitsText, .thinking => true
  | .synthesisComplete, .idle => true
  | .audioChunkArrives, .speaking => true
  | .segmentEndedQuiet, t =>
      decide (t = if m = AppMode.liveVoice then AvatarState.listening else AvatarState.idle)
  | .liveCaptureStart, .listening => true
  | .interruption, .listening => true
  | _, _ => false

/-- The §4.4 table extended by the source's extra transitions. -/
def extendedTableB (s : AvatarState) (e : SessionEvent) (m : AppMode)
    (t : AvatarState) : Bool :=
  specTableB s e m t || extraRowsB e m t

/-! ## The conversation message list -/

/-- `Role` from `src/types.ts`. -/
inductive Role
  | user
  | model
deriving DecidableEq

/-- `Message` from `src/types.ts`; the `Date` timestamp is modelled as an
opaque clock value. -/
structure Message where
  id : String
  role : Role
  text : String
  timestamp : Nat
deriving DecidableEq

/-- `WELCOME_MSG` (ChatInterface.tsx line 270). -/
def WELCOME_MSG : String :=
  "สวัสดีค่ะ ยินดีต้อนรับสู่ตู้ประชาสัมพันธ์อัจฉริยะของวิทยาลัยการอาชีพพุทธมณฑล ท่านสามารถสอบถามข้อมูลหลักสูตร การสมัครเรียน กิจกรรม หรือข้อมูลทั่วไปของวิทยาลัยได้เลยค่ะ"

/-- The fixed welcome message (ChatInterface.tsx lines 274-281). -/
def welcomeMessage : Message :=
  { id := "welcome-init", role := .model, text := WELCOME_MSG, timestamp := 0 }

/-- The initial `messages` state. -/
def initialMessages : List Message :=
  [welcomeMessage]

/-- The three `setMessages` call sites: the user's message
(ChatInterface.tsx line 361), the model's reply (line 381), and the
error-fallback reply in the catch branch (line 408).  All three are of
the form `setMessages(prev => [...prev, msg])`. -/
inductive MessagesOp
  | appendUser (id text : String) (ts : Nat)
  | appendModelReply (id text : String) (ts : Nat)
  | appendErrorReply (id : String) (ts : Nat)

/-- The message appended by each `setMessages` call site. -/
def opMessage : MessagesOp → Message
  | .appendUser id text ts => { id := id, role := .user, text := text, timestamp := ts }
  | .appendModelReply id text ts => { id := id, role := .model, text := text, timestamp := ts }
  | .appendErrorReply id ts =>
      { id := id, role := .model, text := "ขออภัย เกิดข้อผิดพลาดในการเชื่อมต่อ", timestamp := ts }

/-- `setMessages(prev => [...prev, msg])`. -/
def applyMessagesOp (l : List Message) (op : MessagesOp) : List Message :=
  l ++ [opMessage op]

/-- The message list after a sequence of `setMessages` updates, starting
from the initial state. -/
def runMessagesOps (ops : List MessagesOp) : List Message :=
  ops.foldl applyMessagesOp initialMessages

/-! ## C1 — the capture-path PCM encoder -/

/-- C1 (counterexample): the claim "the capture-path PCM encoder maps s to
round(s * 32767), saturating at the int16 bounds (so s = 1 maps to
32767)" is false at s = 1: the code computes `ToInt16(1 * 32768)`, which
wraps around to -32768, while the claimed formula gives 32767. -/
theorem pcm_encode_claim_cx :
    pcmEncodeSample 1 = -32768 ∧ specEncodeSample 1 = 32767 ∧
    pcmEncodeSample 1 ≠ specEncodeSample 1 := by
  have h1 : pcmEncodeSample 1 = -32768 := by
    norm_num [pcmEncodeSample, ratTrunc, toInt16]
  have h2 : specEncodeSample 1 = 32767 := by
    norm_num [specEncodeSample]
  refine ⟨h1, h2, ?_⟩
  rw [h1, h2]
  decide

/-- C1 (amended): for every s ∈ [-1, 1), the capture-path PCM encoder maps
s to trunc(s * 32768), which lies within the int16 bounds (no wrap-around
for such s); the endpoint s = 1 is not saturated but wraps to -32768, and
s = -1 maps to -32768. -/
theorem pcm_encode_amended (s : ℚ) (h1 : -1 ≤ s) (h2 : s < 1) :
    pcmEncodeSample s = ratTrunc (s * 32768)
    ∧ -32768 ≤ pcmEncodeSample s ∧ pcmEncodeSample s ≤ 32767
    ∧ pcmEncodeSample 1 = -32768 ∧ pcmEncodeSample (-1) = -32768 := by
  have hl : (-32768 : ℚ) ≤ s * 32768 := by nlinarith
  have hu : s * 32768 < 32768 := by nlinarith
  obtain ⟨b1, b2⟩ := ratTrunc_mem (s * 32768) hl hu
  have he : pcmEncodeSample s = ratTrunc (s * 32768) :=
    toInt16_of_bounds (ratTrunc (s * 32768)) b1 b2
  have hone : pcmEncodeSample 1 = -32768 := by
    norm_num [pcmEncodeSample, ratTrunc, toInt16]
  have hnegone : pcmEncodeSample (-1) = -32768 := by
    have h : ((-1 : ℚ) * 32768) = ((-32768 : ℤ) : ℚ) := by norm_num
    rw [pcmEncodeSample, ratTrunc, h, Int.ceil_intCast]
    norm_num [toInt16]
  exact ⟨he, he ▸ b1, he ▸ b2, hone, hnegone⟩

/-- Witness for `pcm_encode_amended` at s = 0. -/
theorem pcm_encode_amended_witness :
    (-1 ≤ (0 : ℚ)) ∧ ((0 : ℚ) < 1)
    ∧ pcmEncodeSample 0 = ratTrunc ((0 : ℚ) * 32768) :=
  ⟨neg_one_lt_zero.le, zero_lt_one,
   (pcm_encode_amended 0 neg_one_lt_zero.le zero_lt_one).1⟩

/-! ## C2 — gapless playback scheduling -/

/-- C2: every `playAudio` call assigns the start time
`max(PlaybackCursor, currentDeviceTime)` and then advances the cursor to
that start time plus the buffer's duration; when the next buffer is
scheduled while the previous one is still playing (its device time `n2`
has not passed the cursor), its start time equals the previous buffer's
start time plus the previous duration (gapless), and the start times are
non-decreasing. -/
theorem playAudio_gapless (st : AppState) (n1 d1 n2 : ℚ)
    (hd : 0 ≤ d1) (hbusy : n2 ≤ (playAudio n1 d1 st).cursor) :
    scheduleStart st n1 = max st.cursor n1
    ∧ (playAudio n1 d1 st).cursor = scheduleStart st n1 + d1
    ∧ scheduleStart (playAudio n1 d1 st) n2 = scheduleStart st n1 + d1
    ∧ scheduleStart st n1 ≤ scheduleStart (playAudio n1 d1 st) n2 := by
  have hc : (playAudio n1 d1 st).cursor = scheduleStart st n1 + d1 := rfl
  have h3 : scheduleStart (playAudio n1 d1 st) n2 = scheduleStart st n1 + d1 := by
    show max (playAudio n1 d1 st).cursor n2 = scheduleStart st n1 + d1
    rw [max_eq_left hbusy, hc]
  refine ⟨rfl, hc, h3, ?_⟩
  rw [h3]
  exact le_add_of_nonneg_right hd

/-- Witness for `playAudio_gapless` on a concrete schedule. -/
theorem playAudio_gapless_witness :
    ((0 : ℚ) ≤ 1) ∧ ((1 : ℚ) ≤ (playAudio 0 1 initState).cursor)
    ∧ scheduleStart (playAudio 0 1 initState) 1 = scheduleStart initState 0 + 1 :=
  ⟨zero_le_one, by simp [playAudio, scheduleStart, initState],
   (playAudio_gapless initState 0 1 1 zero_le_one
      (by simp [playAudio, scheduleStart, initState])).2.2.1⟩

/-! ## C3 — interruption handling -/

/-- C3 (counterexample): the claim "the interruption handler stops the
currently playing buffer immediately [and] all future
scheduled-but-not-started buffers are discarded" is false when two buffers
are in flight.  Schedule a 1-second buffer at device time 0 (it starts at
0) and another at device time 1/2 (it starts at 1, the cursor); on an
interruption at device time 1/2 the code stops only
`audioSourceRef.current` — the most recently scheduled source, which has
not yet started — while the source actually playing at time 1/2 is left
unstopped. -/
theorem interrupt_claim_cx :
    (interruptServer (1/2) (playAudio (1/2) 1 (playAudio 0 1
        { initState with mode := .liveVoice }))).sources
      = [{ start := 0, dur := 1, stopped := false },
         { start := 1, dur := 1, stopped := true }]
    ∧ isPlaying { start := 0, dur := 1, stopped := false } (1/2) = true
    ∧ isPlaying { start := 1, dur := 1, stopped := true } (1/2) = false := by
  refine ⟨?_, ?_, ?_⟩
  · norm_num [interruptServer, playAudio, scheduleStart, initState, stopLast]
  · norm_num [isPlaying]
  · norm_num [isPlaying]

lemma stopLast_append (l : List Source) (s : Source) :
    stopLast (l ++ [s]) = l ++ [{ s with stopped := true }] := by
  induction l with
  | nil => rfl
  | cons a l ih =>
    cases l with
    | nil => rfl
    | cons b l2 =>
      show a :: stopLast ((b :: l2) ++ [s])
        = a :: ((b :: l2) ++ [{ s with stopped := true }])
      rw [ih]

/-- C3 (amended): the interruption handler stops the most recently
scheduled buffer (the one referenced by `audioSourceRef`) — leaving any
earlier, still-playing buffers untouched — resets the cursor to the
current device time `t` (so `PlaybackCursor = currentDeviceTime` holds
immediately after), sets the state to listening, and any buffer scheduled
afterwards at a device time `now' ≥ t` starts at or after `t`, never
before.  When at most one buffer is in flight, the stopped buffer is the
currently playing one. -/
theorem interrupt_amended (st : AppState) (t now' : ℚ) :
    (interruptServer t st).cursor = t
    ∧ (interruptServer t st).avatar = .listening
    ∧ (interruptServer t st).sources = stopLast st.sources
    ∧ (∀ (l : List Source) (s : Source),
        stopLast (l ++ [s]) = l ++ [{ s with stopped := true }])
    ∧ t ≤ scheduleStart (interruptServer t st) now' :=
  ⟨rfl, rfl, rfl, stopLast_append, le_max_left t now'⟩

/-! ## C4 — the segment-completion revert -/

/-- C4: at a playback-segment completion at device time `now`, the session
state is reverted — to listening in live mode, idle otherwise — if and
only if `now ≥ PlaybackCursor - 0.1`; when further audio is queued to
start within 0.1 seconds (`now < PlaybackCursor - 0.1`) the state remains
speaking. -/
theorem onended_revert_iff (st : AppState) (now : ℚ)
    (h : st.avatar = .speaking) :
    ((onended now st).avatar
        = (if st.mode = .liveVoice then AvatarState.listening else .idle)
      ↔ st.cursor - 1/10 ≤ now)
    ∧ (now < st.cursor - 1/10 → (onended now st).avatar = .speaking) := by
  constructor
  · constructor
    · intro he
      by_contra hc
      have hkeep : (onended now st).avatar = st.avatar := by
        unfold onended
        rw [if_neg hc]
      rw [hkeep, h] at he
      cases hm : st.mode <;> rw [hm] at he <;> simp at he
    · intro hc
      unfold onended
      rw [if_pos hc]
  · intro hlt
    have hc : ¬ (st.cursor - 1/10 ≤ now) := not_le.mpr hlt
    unfold onended
    rw [if_neg hc]
    exact h

/-- Witness for `onended_revert_iff` with a concrete speaking state. -/
theorem onended_revert_iff_witness :
    ({ initState with avatar := AvatarState.speaking } : AppState).avatar
        = AvatarState.speaking
    ∧ (((onended 0 { initState with avatar := AvatarState.speaking }).avatar
        = (if ({ initState with avatar := AvatarState.speaking } : AppState).mode
              = .liveVoice then AvatarState.listening else .idle))
      ↔ ({ initState with avatar := AvatarState.speaking } : AppState).cursor
          - 1/10 ≤ 0) :=
  ⟨rfl, (onended_revert_iff { initState with avatar := AvatarState.speaking } 0 rfl).1⟩

/-! ## C5 — teardown idempotence -/

/-- C5 (counterexample): the claim "after the first close() call returns,
no further inbound or capture-origin callback mutates SessionState" is
false: `stopLiveSession` never closes the live session (`sessionOpen`
stays true), so an inbound audio-payload message arriving afterwards still
runs `playAudio` and sets the state to speaking, not idle. -/
theorem stop_claim_cx :
    (stopLiveSession (startLiveSessionOk initState)).avatar = .idle
    ∧ (stopLiveSession (startLiveSessionOk initState)).sessionOpen = true
    ∧ (playAudio 0 1 (stopLiveSession (startLiveSessionOk initState))).avatar
        = .speaking
    ∧ AvatarState.speaking ≠ AvatarState.idle :=
  ⟨rfl, rfl, rfl, by decide⟩

/-- C5 (amended): `stopLiveSession` is idempotent — calling it from any
state, any number of times, releases the input device and capture
processor without throwing and forces the state to idle, with a second
call a no-op — but it does not release the transport (the live session is
left open), and inbound callbacks arriving after it can still mutate the
session state. -/
theorem stopLiveSession_amended (st : AppState) :
    stopLiveSession (stopLiveSession st) = stopLiveSession st
    ∧ (stopLiveSession st).avatar = .idle
    ∧ (stopLiveSession st).isConnected = false
    ∧ (stopLiveSession st).stream = false
    ∧ (stopLiveSession st).processor = false
    ∧ (stopLiveSession st).sessionOpen = st.sessionOpen :=
  ⟨rfl, rfl, rfl, rfl, rfl, rfl⟩

/-! ## C6 — failed session open -/

/-- C6 (code bug): when `startLiveSession` fails to acquire the microphone
or transport (the catch branch), the error is surfaced and no partial
session is left open (`isConnected = false`, nothing acquired), but the
session state is left `LISTENING` — the catch branch never resets the
avatar to `IDLE`, unlike the parallel `onerror` path which calls
`stopLiveSession`. -/
theorem startLiveSession_fail_state :
    (startLiveSessionFail { initState with mode := .liveVoice }).isConnected = false
    ∧ (startLiveSessionFail { initState with mode := .liveVoice }).sessionOpen = false
    ∧ (startLiveSessionFail { initState with mode := .liveVoice }).stream = false
    ∧ (startLiveSessionFail { initState with mode := .liveVoice }).error
        = some micConnectError
    ∧ (startLiveSessionFail { initState with mode := .liveVoice }).avatar
        = .listening
    ∧ AvatarState.listening ≠ AvatarState.idle :=
  ⟨rfl, rfl, rfl, rfl, rfl, by decide⟩

/-! ## C7 — cursor monotonicity -/

/-- C7 (counterexample): the claim "no operation of the program ever
assigns the PlaybackCursor a value smaller than its current value" is
false: with the cursor at 5, an interruption handled at device time 0
assigns it 0. -/
theorem cursor_monotone_cx :
    (interruptServer 0 { initState with cursor := 5 }).cursor
      < ({ initState with cursor := 5 } : AppState).cursor := by
  norm_num [interruptServer, initState]

/-- C7 (amended): the PlaybackCursor is non-decreasing under playback
scheduling — `playAudio` never assigns it a smaller value — but both the
interruption handler and the per-utterance reset in `handleSendMessage`
assign it the current device time, which can be smaller than its current
value; monotonicity holds only between those resets. -/
theorem cursor_updates (st : AppState) (now dur t : ℚ) (hd : 0 ≤ dur) :
    st.cursor ≤ (playAudio now dur st).cursor
    ∧ (interruptServer t st).cursor = t
    ∧ (resetUtteranceCursor t st).cursor = t := by
  refine ⟨?_, rfl, rfl⟩
  have h1 : st.cursor ≤ scheduleStart st now := le_max_left _ _
  have h2 : scheduleStart st now ≤ scheduleStart st now + dur :=
    le_add_of_nonneg_right hd
  exact le_trans h1 h2

/-- Witness for `cursor_updates` on a concrete schedule. -/
theorem cursor_updates_witness :
    ((0 : ℚ) ≤ 1) ∧ initState.cursor ≤ (playAudio 0 1 initState).cursor
    ∧ (interruptServer 0 initState).cursor = 0 :=
  ⟨zero_le_one, (cursor_updates initState 0 1 0 zero_le_one).1,
   (cursor_updates initState 0 1 0 zero_le_one).2.1⟩

/-! ## C8 — the capture pipeline -/

/-- C8: while capture is active the pipeline reads fixed-size frames of
exactly 4096 samples from an input device running at 16 kHz, and every
completed frame is encoded sample-by-sample and sent outbound tagged with
the descriptor `audio/pcm;rate=16000` (mime type `audio/pcm`, rate
16000). -/
theorem capture_frame_contract (frame : List ℚ)
    (h : frame.length = captureBufferSize) :
    captureBufferSize = 4096
    ∧ inputSampleRate = 16000
    ∧ (onaudioprocess frame).mimeType = "audio/pcm;rate=16000"
    ∧ (onaudioprocess frame).data = frame.map pcmEncodeSample
    ∧ (onaudioprocess frame).data.length = 4096 := by
  refine ⟨rfl, rfl, rfl, rfl, ?_⟩
  simp [onaudioprocess, h, captureBufferSize]

/-- Witness for `capture_frame_contract` on a concrete 4096-sample frame. -/
theorem capture_frame_contract_witness :
    (List.replicate 4096 (0 : ℚ)).length = captureBufferSize
    ∧ (onaudioprocess (List.replicate 4096 (0 : ℚ))).data.length = 4096 :=
  ⟨by rw [List.length_replicate, captureBufferSize],
   (capture_frame_contract (List.replicate 4096 0)
      (by rw [List.length_replicate, captureBufferSize])).2.2.2.2⟩

/-! ## C9 — the state table -/

/-- C9 (counterexample): the claim "every assignment to the session state
is one of the §4.4 table's rows" is false: on user text submission
`handleSendMessage` assigns `THINKING` directly, while the table's only
row for that event is Idle → Listening. -/
theorem state_table_cx :
    codeAssigns SessionEvent.userSubmitsText AppMode.textChat
        = some AvatarState.thinking
    ∧ specTableB AvatarState.idle SessionEvent.userSubmitsText AppMode.textChat
        AvatarState.thinking = false :=
  ⟨rfl, rfl⟩

/-- C9 (amended): every assignment to the session state is one of the
§4.4 table's rows, or one of the source's extra transitions: assignments
ignore the previous state; text submission jumps straight to Thinking;
the completed TTS call resets to Idle just before playback; an arriving
audio chunk sets Speaking from any state; the segment-ended revert,
capture start and interruption assignments also fire from any previous
state (the interruption one regardless of mode). -/
theorem state_assignments_amended :
    ∀ (s : AvatarState) (e : SessionEvent) (m : AppMode) (t : AvatarState),
      codeAssigns e m = some t → extendedTableB s e m t = true := by
  decide

/-- Witness for `state_assignments_amended` at a concrete assignment. -/
theorem state_assignments_amended_witness :
    extendedTableB AvatarState.speaking SessionEvent.interruption
      AppMode.liveVoice AvatarState.listening = true :=
  state_assignments_amended .speaking .interruption .liveVoice .listening rfl

/-! ## C10 — the message list -/

lemma foldl_applyMessagesOp (l : List Message) (ops : List MessagesOp) :
    ops.foldl applyMessagesOp l = l ++ ops.map opMessage := by
  induction ops generalizing l with
  | nil => simp
  | cons o os ih =>
    simp only [List.foldl_cons, List.map_cons, ih, applyMessagesOp]
    simp [List.append_assoc]

/-- C10: the conversation message list is append-only and always begins
with the fixed welcome message (id `welcome-init`, role model): from the
initial state, every `setMessages` update appends exactly one entry at the
end, so after any sequence of updates the welcome message is still the
first element and no message has been removed or edited. -/
theorem messages_append_only (ops : List MessagesOp) :
    (runMessagesOps ops).head? = some welcomeMessage
    ∧ welcomeMessage.id = "welcome-init"
    ∧ welcomeMessage.role = .model
    ∧ ∀ op, runMessagesOps (ops ++ [op]) = runMessagesOps ops ++ [opMessage op] := by
  refine ⟨?_, rfl, rfl, ?_⟩
  · rw [runMessagesOps, foldl_applyMessagesOp]
    rfl
  · intro op
    rw [runMessagesOps, runMessagesOps, foldl_applyMessagesOp,
      foldl_applyMessagesOp]
    simp [List.append_assoc]

end VPromote
